import Mathlib

/-!
Verification development for the Argus incident/alert backend
(repository Uninett/aas).

The Python sources under `src/argus/notificationprofile/serializers.py`,
`src/argus/incident/views.py` and `src/aas/site/alert/views.py` are shallowly
embedded below.  The database is an explicit state (`Db`) of relational rows;
ORM calls become pure state-passing functions; exceptions become `Except Exc`.
Definitions whose doc comment starts with `Modelled from the spec:` stand for
code of the repository that is not among the given source files (Django models
and forms); they follow the specification's description of those parts.
-/

/-- Exceptions raised by the embedded code: `rest_framework`'s
`serializers.ValidationError` (surfaced as HTTP 400), `django.db.IntegrityError`,
`django.core.exceptions.ValidationError`, and Python's `NameError`. -/
inductive Exc where
  | validationError (msg : String)
  | integrityError (msg : String)
  | djangoValidationError (msg : String)
  | nameError (missing : String)
deriving Repr, DecidableEq

/-- Validated data of `TimeIntervalSerializer` (fields `day`, `start`, `end`);
`start` and `end` are times of day, embedded as naturals (only their order is
used by the code). -/
structure TimeIntervalAttrs where
  day : Nat
  start : Nat
  «end» : Nat
deriving Repr, DecidableEq

/-- A row of the `Timeslot` table: primary key, owning user (by pk), name. -/
structure TimeslotRow where
  pk : Nat
  user : Nat
  name : String
deriving Repr, DecidableEq

/-- A row of the `TimeInterval` table: primary key, owning timeslot (by pk),
and the interval fields. -/
structure TimeIntervalRow where
  pk : Nat
  timeslot : Nat
  day : Nat
  start : Nat
  «end» : Nat
deriving Repr, DecidableEq

/-- A row of the `NotificationProfile` table; its primary key is the pk of its
one-to-one `Timeslot`. -/
structure NotificationProfileRow where
  pk : Nat
deriving Repr, DecidableEq

/-- A row of the `SourceSystem` table: primary key and the username of its
connected user. -/
structure SourceSystemRow where
  pk : Nat
  username : String
deriving Repr, DecidableEq

/-- A row of the `Incident` table: primary key, the user who posted it, and the
source system it references. -/
structure IncidentRow where
  pk : Nat
  user : Nat
  source : Nat
deriving Repr, DecidableEq

/-- A row of the `Alert` table (legacy app `aas.site.alert`). -/
structure AlertRow where
  pk : Nat
  source : Nat
deriving Repr, DecidableEq

/-- The database state: one list of rows per table, plus the auto-increment
counters for the primary keys handed out by `objects.create`. -/
structure Db where
  users : List String
  sources : List SourceSystemRow
  timeslots : List TimeslotRow
  intervals : List TimeIntervalRow
  profiles : List NotificationProfileRow
  incidents : List IncidentRow
  alerts : List AlertRow
  nextSourcePk : Nat
  nextTimeslotPk : Nat
  nextIntervalPk : Nat
  nextIncidentPk : Nat
deriving Repr, DecidableEq

/-- Well-formedness of the database: primary keys already handed out are below
the auto-increment counters, and every time interval references an existing
timeslot. -/
def Db.Wf (db : Db) : Prop :=
  (∀ t ∈ db.timeslots, t.pk < db.nextTimeslotPk) ∧
  (∀ r ∈ db.intervals, r.pk < db.nextIntervalPk) ∧
  (∀ r ∈ db.intervals, ∃ t ∈ db.timeslots, r.timeslot = t.pk)

instance (db : Db) : Decidable db.Wf := by
  unfold Db.Wf
  infer_instance

/-- `TimeIntervalSerializer.validate` (serializers.py lines 14-17): rejects the
attrs with a `ValidationError` when `start >= end`, otherwise returns them
unchanged. -/
def TimeIntervalSerializer.validate (attrs : TimeIntervalAttrs) :
    Except Exc TimeIntervalAttrs :=
  if attrs.start ≥ attrs.«end» then
    .error (.validationError ("Start time must be before end time."))
  else
    .ok attrs

/-- Validated data of `TimeslotSerializer`: the owning user (passed to the
serializer's `save` by the view), the name, and the nested time intervals. -/
structure TimeslotValidatedData where
  user : Nat
  name : String
  time_intervals : List TimeIntervalAttrs
deriving Repr, DecidableEq

/-- Modelled from the spec: the `Timeslot` model is not among the given source
files; per the spec "a timeslot name must be unique per user" is "enforced via
framework-level validators", so `Timeslot.objects.create` raises an
`IntegrityError` exactly when the same user already has a timeslot with the
given name, and otherwise inserts a fresh row. -/
def Timeslot.objectsCreate (db : Db) (user : Nat) (name : String) :
    Except Exc (TimeslotRow × Db) :=
  if db.timeslots.any (fun t => t.user == user && t.name == name) then
    .error (.integrityError ("UNIQUE constraint failed: timeslot.user_id, timeslot.name"))
  else
    let row : TimeslotRow := ⟨db.nextTimeslotPk, user, name⟩
    .ok (row, { db with
      timeslots := db.timeslots ++ [row],
      nextTimeslotPk := db.nextTimeslotPk + 1 })

/-- `Timeslot.objects.filter(name=name).exists()` (serializers.py line 34):
note that it filters on the name only, not on the user. -/
def Timeslot.filterNameExists (db : Db) (name : String) : Bool :=
  db.timeslots.any (fun t => t.name == name)

/-- `TimeInterval.objects.create(timeslot=..., **time_interval_data)`:
inserts a fresh interval row attached to the given timeslot. -/
def TimeInterval.objectsCreate (db : Db) (timeslotPk : Nat)
    (ti : TimeIntervalAttrs) : Db :=
  { db with
    intervals := db.intervals ++ [⟨db.nextIntervalPk, timeslotPk, ti.day, ti.start, ti.«end»⟩],
    nextIntervalPk := db.nextIntervalPk + 1 }

/-- The duplicate-name message raised by `TimeslotSerializer.create`
(serializers.py lines 35-37). -/
def timeslotExistsMsg (name : String) (user : Nat) : String :=
  "Timeslot with the name \x27" ++ name ++ "\x27 already exists for the user "
    ++ toString user ++ "."

/-- `TimeslotSerializer.create` (serializers.py lines 28-44): pops the nested
time intervals, creates the timeslot, converts a duplicate-name
`IntegrityError` into a `ValidationError` (re-raising any other
`IntegrityError`), then creates the posted time intervals. -/
def TimeslotSerializer.create (db : Db) (vd : TimeslotValidatedData) :
    Except Exc (TimeslotRow × Db) :=
  match Timeslot.objectsCreate db vd.user vd.name with
  | .error e =>
      if Timeslot.filterNameExists db vd.name then
        .error (.validationError (timeslotExistsMsg vd.name vd.user))
      else
        .error e
  | .ok (timeslot, db1) =>
      let db2 := vd.time_intervals.foldl
        (fun d ti => TimeInterval.objectsCreate d timeslot.pk ti) db1
      .ok (timeslot, db2)

/-- Modelled from the spec: `timeslot.save()` on a renamed `Timeslot` instance
(model not among the given source files) re-checks the per-user unique-name
constraint; it raises an `IntegrityError` when another timeslot of the same
user already has the new name, and otherwise stores the updated row. -/
def Timeslot.instanceSave (db : Db) (t2 : TimeslotRow) : Except Exc Db :=
  if db.timeslots.any (fun t => !(t.pk == t2.pk) && t.user == t2.user && t.name == t2.name) then
    .error (.integrityError ("UNIQUE constraint failed: timeslot.user_id, timeslot.name"))
  else
    .ok { db with
      timeslots := db.timeslots.map (fun t => if t.pk == t2.pk then t2 else t) }

/-- `TimeslotSerializer.update` (serializers.py lines 46-57): renames the
timeslot and saves it, deletes all its existing time intervals, then creates
the posted time intervals. -/
def TimeslotSerializer.update (db : Db) (timeslot : TimeslotRow)
    (vd : TimeslotValidatedData) : Except Exc (TimeslotRow × Db) :=
  let t2 : TimeslotRow := { timeslot with name := vd.name }
  match Timeslot.instanceSave db t2 with
  | .error e => .error e
  | .ok db1 =>
      let db2 := { db1 with
        intervals := db1.intervals.filter (fun r => !(r.timeslot == timeslot.pk)) }
      let db3 := vd.time_intervals.foldl
        (fun d ti => TimeInterval.objectsCreate d timeslot.pk ti) db2
      .ok (t2, db3)

/-- Validated data of `NotificationProfileSerializer`: the chosen timeslot
(by pk). -/
structure NotificationProfileValidatedData where
  timeslot : Nat
deriving Repr, DecidableEq

/-- Modelled from the spec: the `NotificationProfile` model is not among the
given source files; the serializer's own duplicate handling (serializers.py
lines 83-87) shows that a profile's primary key is the pk of its one-to-one
`Timeslot`, so `NotificationProfile.objects.create` raises an `IntegrityError`
exactly when a profile with that pk already exists. -/
def NotificationProfile.objectsCreate (db : Db)
    (vd : NotificationProfileValidatedData) :
    Except Exc (NotificationProfileRow × Db) :=
  if db.profiles.any (fun p => p.pk == vd.timeslot) then
    .error (.integrityError ("UNIQUE constraint failed: notificationprofile.timeslot_id"))
  else
    let row : NotificationProfileRow := ⟨vd.timeslot⟩
    .ok (row, { db with profiles := db.profiles ++ [row] })

/-- The duplicate-profile message raised by `NotificationProfileSerializer.create`
(serializers.py lines 85-87). -/
def profileExistsMsg (timeslotPk : Nat) : String :=
  "NotificationProfile with Timeslot with pk=" ++ toString timeslotPk
    ++ " already exists."

/-- `NotificationProfileSerializer.create` (serializers.py lines 79-89):
delegates to the model-level create, converting a duplicate `IntegrityError`
into a `ValidationError` (re-raising any other `IntegrityError`). -/
def NotificationProfileSerializer.create (db : Db)
    (vd : NotificationProfileValidatedData) :
    Except Exc (NotificationProfileRow × Db) :=
  match NotificationProfile.objectsCreate db vd with
  | .ok r => .ok r
  | .error e =>
      if db.profiles.any (fun p => p.pk == vd.timeslot) then
        .error (.validationError (profileExistsMsg vd.timeslot))
      else
        .error e

/-- The requesting user as seen by the incident views: pk, superuser flag, and
the pk of the connected `SourceSystem` when one exists (`user.source_system`
raises `SourceSystem.DoesNotExist` otherwise, embedded as `Option`). -/
structure RequestUser where
  pk : Nat
  is_superuser : Bool
  source_system : Option Nat
deriving Repr, DecidableEq

/-- Modelled from the spec: `IncidentSerializer.save(user=..., source=...)`
(the serializer module is not among the given source files) persists a new
incident row referencing exactly the given user and source system. -/
def Incident.objectsCreate (userPk sourcePk : Nat) (db : Db) :
    Except Exc (IncidentRow × Db) :=
  let row : IncidentRow := ⟨db.nextIncidentPk, userPk, sourcePk⟩
  .ok (row, { db with
    incidents := db.incidents ++ [row],
    nextIncidentPk := db.nextIncidentPk + 1 })

/-- The message raised when a non-superuser specifies the source field
(views.py lines 203-205). -/
def mustBeSuperuserMsg : String :=
  "You must be a superuser to be allowed to specify the \x27source\x27 field."

/-- The message raised when the given source pk does not exist (views.py
line 211). -/
def sourceDoesNotExistMsg (sourcePk : Nat) : String :=
  "SourceSystem with pk=" ++ toString sourcePk ++ " does not exist."

/-- The message raised when the requesting user has no connected source system
(views.py line 216). -/
def noConnectedSourceMsg : String :=
  "The requesting user must have a connected source system."

/-- `IncidentViewSet.perform_create` (views.py lines 198-223), parametric in
the serializer's `save` (the incident serializer module is not among the given
source files).  Resolves the source system: a posted `source` field requires a
superuser and an existing `SourceSystem`, otherwise the user's connected
source system is used; then saves, converting an `IntegrityError` into a
`ValidationError`.  The second component is the trace of
`background_send_notifications_to_users` calls: the method makes none (the
code carries a `TODO: send notifications to users` comment instead). -/
def IncidentViewSet.perform_create
    (save : Nat → Nat → Db → Except Exc (IncidentRow × Db)) (db : Db)
    (user : RequestUser) (initialDataSource : Option Nat) :
    Except Exc (IncidentRow × Db) × List Nat :=
  let result :=
    match initialDataSource with
    | some sourcePk =>
        if !user.is_superuser then
          .error (.validationError mustBeSuperuserMsg)
        else
          match db.sources.find? (fun s => s.pk == sourcePk) with
          | none => .error (.validationError (sourceDoesNotExistMsg sourcePk))
          | some source =>
              match save user.pk source.pk db with
              | .error (.integrityError m) => .error (.validationError m)
              | r => r
    | none =>
        match user.source_system with
        | none => .error (.validationError noConnectedSourceMsg)
        | some sourcePk =>
            match save user.pk sourcePk db with
            | .error (.integrityError m) => .error (.validationError m)
            | r => r
  (result, [])

/-- `IncidentViewSet._set_state_action` (views.py lines 190-196), parametric
in the model-level state transition (`incident.set_active` /
`incident.set_inactive`, whose module is not among the given source files):
a `django.core.exceptions.ValidationError` from the guard is re-raised as a
`rest_framework` `ValidationError` and the database is left untouched; on
success the updated incident is returned (as the serialized response) together
with the state the transition produced. -/
def IncidentViewSet._set_state_action
    (set_state : IncidentRow → Db → Except Exc (IncidentRow × Db))
    (db : Db) (incident : IncidentRow) : Except Exc IncidentRow × Db :=
  match set_state incident db with
  | .error (.djangoValidationError m) => (.error (.validationError m), db)
  | .error e => (.error e, db)
  | .ok (inc2, db2) => (.ok inc2, db2)

/-- One posted JSON dict of the legacy incident-creation endpoint, reduced to
the fields the embedding needs. -/
structure IncidentJson where
  user : Nat
  source : Nat
deriving Repr, DecidableEq

/-- Modelled from the spec: `mappings.create_incident_from_json` (module not
among the given source files) parses one JSON dict and persists a new incident
row for it. -/
def create_incident_from_json (db : Db) (j : IncidentJson) : IncidentRow × Db :=
  let row : IncidentRow := ⟨db.nextIncidentPk, j.user, j.source⟩
  (row, { db with
    incidents := db.incidents ++ [row],
    nextIncidentPk := db.nextIncidentPk + 1 })

/-- `IncidentCreate_legacy.post` (views.py lines 235-245): creates one incident
per posted JSON dict, then calls `background_send_notifications_to_users` for
each created incident.  The first component is the list of created incidents
and the final database; the second is the trace of notification calls (the pk
of each notified incident, in call order). -/
def IncidentCreate_legacy.post (db : Db) (ds : List IncidentJson) :
    (List IncidentRow × Db) × List Nat :=
  let created_incidents := ds.foldl
    (fun (p : List IncidentRow × Db) j =>
      let r := create_incident_from_json p.2 j
      (p.1 ++ [r.1], r.2))
    ([], db)
  (created_incidents, created_incidents.1.map (fun i => i.pk))

/-- The request data of `SourceSystemList.create`: the posted username, with
the validity of all other posted fields abstracted into one flag. -/
structure SourceFormData where
  username : String
  otherFieldsOk : Bool
deriving Repr, DecidableEq

/-- Modelled from the spec: `AddSourceSystemForm` (forms module not among the
given source files) is valid when its non-username fields are valid and the
username is not already taken by an existing user (the uniqueness constraint
the view's comment refers to). -/
def AddSourceSystemForm.is_valid (db : Db) (d : SourceFormData) : Bool :=
  d.otherFieldsOk && !(db.users.contains d.username)

/-- Modelled from the spec: `AddSourceSystemForm.save` creates the source
system together with its connected user under the form's username. -/
def AddSourceSystemForm.save (db : Db) (d : SourceFormData) :
    SourceSystemRow × Db :=
  let row : SourceSystemRow := ⟨db.nextSourcePk, d.username⟩
  (row, { db with
    users := db.users ++ [d.username],
    sources := db.sources ++ [row],
    nextSourcePk := db.nextSourcePk + 1 })

/-- Stand-in for the field-level `form.errors` dict raised with the
`ValidationError`s of `SourceSystemList` (views.py lines 144 and 158). -/
def formErrorsMsg : String := "form.errors"

/-- `SourceSystemList._set_available_username` (views.py lines 151-158):
replaces the form's username by the posted one suffixed with a random hex
token (the token is a parameter here), re-cleans the form and raises a
`ValidationError` if it is still invalid. -/
def SourceSystemList._set_available_username (suffix : String) (db : Db)
    (d : SourceFormData) : Except Exc SourceFormData :=
  let username := d.username ++ "_" ++ suffix
  let d2 : SourceFormData := { d with username := username }
  if AddSourceSystemForm.is_valid db d2 then .ok d2
  else .error (.validationError formErrorsMsg)

/-- `SourceSystemList.create` (views.py lines 136-149): validates the form; if
it is invalid because the username is taken, the username is suffixed instead
of rejecting; if it is invalid for any other reason a `ValidationError` is
raised; then the form is saved and the created source system returned. -/
def SourceSystemList.create (suffix : String) (db : Db) (d : SourceFormData) :
    Except Exc (SourceSystemRow × Db) :=
  if AddSourceSystemForm.is_valid db d then
    .ok (AddSourceSystemForm.save db d)
  else if db.users.contains d.username then
    match SourceSystemList._set_available_username suffix db d with
    | .error e => .error e
    | .ok d2 => .ok (AddSourceSystemForm.save db d2)
  else
    .error (.validationError formErrorsMsg)

/-- The global names bound in the module `aas/site/alert/views.py`: its
imports (lines 269-277) and its own definitions.  `AlertHistory` is not among
them; it occurs only in a comment and in the undefined use at line 288. -/
def alertViewsModuleNames : List String :=
  ["json", "serializers", "HttpResponse", "HttpResponseRedirect", "FormView",
   "json_utils", "AlertJsonForm", "Alert",
   "all_alerts_view", "all_alerts_from_source_view", "CreateAlertView"]

/-- Python name resolution inside `aas/site/alert/views.py`: an unbound global
name raises a `NameError`. -/
def alertViewsLookup (n : String) : Except Exc Unit :=
  if alertViewsModuleNames.contains n then .ok ()
  else .error (.nameError n)

/-- `all_alerts_view` (alert/views.py lines 280-284): serializes
`Alert.objects.all()` to JSON; the name `Alert` is imported, so the view
returns the serialized rows. -/
def all_alerts_view (db : Db) : Except Exc (List AlertRow) :=
  match alertViewsLookup ("Alert") with
  | .error e => .error e
  | .ok _ => .ok db.alerts

/-- `all_alerts_from_source_view` (alert/views.py lines 287-290): evaluates
`AlertHistory.objects.filter(source=source_id)`; the name `AlertHistory` is
unbound in the module, so evaluating it raises before anything else runs. -/
def all_alerts_from_source_view (db : Db) (source_id : Nat) :
    Except Exc (List AlertRow) :=
  match alertViewsLookup ("AlertHistory") with
  | .error e => .error e
  | .ok _ => .ok (db.alerts.filter (fun a => a.source == source_id))

/-- The serialized representation of a `Timeslot` per the serializer's `Meta`
(serializers.py lines 23-26): fields `pk`, `name` and the nested
`time_intervals`. -/
structure TimeslotRepr where
  pk : Nat
  name : String
  time_intervals : List TimeIntervalAttrs
deriving Repr, DecidableEq

/-- The attrs carried by a stored time-interval row (what the nested
`TimeIntervalSerializer` renders for it). -/
def TimeIntervalRow.attrs (r : TimeIntervalRow) : TimeIntervalAttrs :=
  ⟨r.day, r.start, r.«end»⟩

/-- `TimeslotSerializer` reading a timeslot: its pk and name, and the attrs of
the interval rows attached to it, in insertion order. -/
def TimeslotSerializer.to_representation (db : Db) (t : TimeslotRow) :
    TimeslotRepr :=
  ⟨t.pk, t.name,
    (db.intervals.filter (fun r => r.timeslot == t.pk)).map TimeIntervalRow.attrs⟩

/-- The interval rows inserted by the serializer loops for the posted attrs:
fresh pks counting up from `pk0`, all attached to the timeslot `tpk`. -/
def newIntervalRows (pk0 tpk : Nat) :
    List TimeIntervalAttrs → List TimeIntervalRow
  | [] => []
  | ti :: rest =>
      ⟨pk0, tpk, ti.day, ti.start, ti.«end»⟩ :: newIntervalRows (pk0 + 1) tpk rest

/-- The incidents created by the legacy endpoint's list comprehension, in
order. -/
def legacyCreated (db : Db) : List IncidentJson → List IncidentRow
  | [] => []
  | j :: rest =>
      (create_incident_from_json db j).1 ::
        legacyCreated (create_incident_from_json db j).2 rest

/-- The database after the legacy endpoint's list comprehension has run. -/
def legacyFinalDb (db : Db) : List IncidentJson → Db
  | [] => db
  | j :: rest => legacyFinalDb (create_incident_from_json db j).2 rest

lemma intervalsFoldl_eq (ds : List TimeIntervalAttrs) (tpk : Nat) (db : Db) :
    ds.foldl (fun d ti => TimeInterval.objectsCreate d tpk ti) db =
      { db with
        intervals := db.intervals ++ newIntervalRows db.nextIntervalPk tpk ds,
        nextIntervalPk := db.nextIntervalPk + ds.length } := by
  induction ds generalizing db with
  | nil => simp [newIntervalRows]
  | cons ti rest ih =>
      rw [List.foldl_cons, ih]
      simp only [TimeInterval.objectsCreate, newIntervalRows, List.length_cons,
        Db.mk.injEq, List.append_assoc, List.cons_append, List.nil_append,
        and_true, true_and]
      omega

lemma newIntervalRows_mem (pk0 tpk : Nat) (ds : List TimeIntervalAttrs) :
    ∀ r ∈ newIntervalRows pk0 tpk ds, r.timeslot = tpk ∧ pk0 ≤ r.pk := by
  induction ds generalizing pk0 with
  | nil => simp [newIntervalRows]
  | cons ti rest ih =>
      intro r hr
      simp only [newIntervalRows, List.mem_cons] at hr
      rcases hr with h | h
      · subst h; exact ⟨rfl, Nat.le_refl _⟩
      · have := ih (pk0 + 1) r h
        exact ⟨this.1, Nat.le_of_succ_le this.2⟩

lemma newIntervalRows_filter_self (pk0 tpk : Nat) (ds : List TimeIntervalAttrs) :
    (newIntervalRows pk0 tpk ds).filter (fun r => r.timeslot == tpk) =
      newIntervalRows pk0 tpk ds := by
  induction ds generalizing pk0 with
  | nil => simp [newIntervalRows]
  | cons ti rest ih => simp [newIntervalRows, List.filter_cons, ih]

lemma newIntervalRows_filter_ne (pk0 tpk q : Nat) (hq : q ≠ tpk)
    (ds : List TimeIntervalAttrs) :
    (newIntervalRows pk0 tpk ds).filter (fun r => r.timeslot == q) = [] := by
  induction ds generalizing pk0 with
  | nil => simp [newIntervalRows]
  | cons ti rest ih =>
      simp [newIntervalRows, List.filter_cons, ih, Ne.symm hq]

lemma newIntervalRows_attrs (pk0 tpk : Nat) (ds : List TimeIntervalAttrs) :
    (newIntervalRows pk0 tpk ds).map TimeIntervalRow.attrs = ds := by
  induction ds generalizing pk0 with
  | nil => simp [newIntervalRows]
  | cons ti rest ih => simp [newIntervalRows, TimeIntervalRow.attrs, ih]

/-- Claim C1: `TimeIntervalSerializer.validate` raises a `ValidationError` with
message "Start time must be before end time." iff the interval's start is not
strictly before its end, and returns the attrs unchanged when start < end. -/
theorem C1_time_interval_validate (attrs : TimeIntervalAttrs) :
    (TimeIntervalSerializer.validate attrs =
        .error (.validationError ("Start time must be before end time.")) ↔
      ¬ attrs.start < attrs.«end») ∧
    (attrs.start < attrs.«end» →
      TimeIntervalSerializer.validate attrs = .ok attrs) := by
  unfold TimeIntervalSerializer.validate
  constructor
  · constructor
    · intro h
      by_contra hlt
      rw [if_neg (by omega)] at h
      exact Except.noConfusion h
    · intro h
      rw [if_pos (by omega)]
  · intro h
    rw [if_neg (by omega)]

/-- The theorem of claim C1 applied at a concrete interval (day 0, 08:00 to
16:00, as minutes of the day). -/
theorem C1_witness :
    TimeIntervalSerializer.validate ⟨0, 480, 960⟩ = .ok ⟨0, 480, 960⟩ :=
  (C1_time_interval_validate ⟨0, 480, 960⟩).2 (by decide)

/-- Claim C2: `TimeslotSerializer.create` rejects a timeslot whose name
duplicates the name of a timeslot of the same user with a `ValidationError`
naming the duplicate; when no timeslot of the same user has the name, creation
succeeds even if other users own a timeslot with that name. -/
theorem C2_timeslot_name_unique_per_user (db : Db) (vd : TimeslotValidatedData) :
    ((∃ t ∈ db.timeslots, t.user = vd.user ∧ t.name = vd.name) →
      TimeslotSerializer.create db vd =
        .error (.validationError (timeslotExistsMsg vd.name vd.user))) ∧
    ((∀ t ∈ db.timeslots, t.user = vd.user → t.name ≠ vd.name) →
      ∃ t db2, TimeslotSerializer.create db vd = .ok (t, db2) ∧
        t.user = vd.user ∧ t.name = vd.name) := by
  constructor
  · rintro ⟨t, ht, hu, hn⟩
    have hany : db.timeslots.any (fun t => t.user == vd.user && t.name == vd.name) = true := by
      simp only [List.any_eq_true, Bool.and_eq_true, beq_iff_eq]
      exact ⟨t, ht, hu, hn⟩
    have hex : Timeslot.filterNameExists db vd.name = true := by
      simp only [Timeslot.filterNameExists, List.any_eq_true, beq_iff_eq]
      exact ⟨t, ht, hn⟩
    simp [TimeslotSerializer.create, Timeslot.objectsCreate, hany, hex]
  · intro h
    have hany : db.timeslots.any (fun t => t.user == vd.user && t.name == vd.name) = false := by
      simp only [List.any_eq_false, Bool.and_eq_true, beq_iff_eq, not_and]
      exact fun t ht hu => h t ht hu
    simp [TimeslotSerializer.create, Timeslot.objectsCreate, hany]

/-- The theorem of claim C2 applied at a user (pk 1) who already owns a
timeslot named "Weekdays" and posts a second timeslot with the same name. -/
theorem C2_witness :
    TimeslotSerializer.create ⟨[], [], [⟨0, 1, "Weekdays"⟩], [], [], [], [], 0, 1, 0, 0⟩
        ⟨1, "Weekdays", []⟩ =
      .error (.validationError (timeslotExistsMsg "Weekdays" 1)) :=
  (C2_timeslot_name_unique_per_user _ _).1 ⟨⟨0, 1, "Weekdays"⟩, by simp, rfl, rfl⟩

/-- Claim C3: create operations never let a `django.db.IntegrityError` escape:
`TimeslotSerializer.create`, `NotificationProfileSerializer.create` and
`IncidentViewSet.perform_create` never return an `IntegrityError`, and when
the incident save raises one, `perform_create` surfaces it as a
`ValidationError`. -/
theorem C3_integrity_errors_mapped (db : Db) (vd : TimeslotValidatedData)
    (nv : NotificationProfileValidatedData)
    (save : Nat → Nat → Db → Except Exc (IncidentRow × Db))
    (user : RequestUser) (ids : Option Nat) (m : String) :
    (TimeslotSerializer.create db vd ≠ .error (.integrityError m)) ∧
    (NotificationProfileSerializer.create db nv ≠ .error (.integrityError m)) ∧
    ((IncidentViewSet.perform_create save db user ids).1 ≠
      .error (.integrityError m)) ∧
    (∀ spk, ids = none → user.source_system = some spk →
      save user.pk spk db = .error (.integrityError m) →
      (IncidentViewSet.perform_create save db user ids).1 =
        .error (.validationError m)) := by
  refine ⟨?_, ?_, ?_, ?_⟩
  · by_cases hany : db.timeslots.any (fun t => t.user == vd.user && t.name == vd.name) = true
    · have hex : Timeslot.filterNameExists db vd.name = true := by
        simp only [List.any_eq_true, Bool.and_eq_true, beq_iff_eq] at hany
        obtain ⟨t, ht, _, hn⟩ := hany
        simp only [Timeslot.filterNameExists, List.any_eq_true, beq_iff_eq]
        exact ⟨t, ht, hn⟩
      simp [TimeslotSerializer.create, Timeslot.objectsCreate, hany, hex]
    · simp [TimeslotSerializer.create, Timeslot.objectsCreate, hany]
  · by_cases hany : db.profiles.any (fun p => p.pk == nv.timeslot) = true
    · simp [NotificationProfileSerializer.create, NotificationProfile.objectsCreate, hany]
    · simp [NotificationProfileSerializer.create, NotificationProfile.objectsCreate, hany]
  · unfold IncidentViewSet.perform_create
    cases ids with
    | none =>
        cases hs : user.source_system with
        | none => simp
        | some spk =>
            cases hr : save user.pk spk db with
            | ok r => simp [hr]
            | error e => cases e <;> simp [hr]
    | some spk =>
        cases hsu : user.is_superuser with
        | false => simp [hsu]
        | true =>
            cases hf : db.sources.find? (fun s => s.pk == spk) with
            | none => simp [hsu, hf]
            | some source =>
                cases hr : save user.pk source.pk db with
                | ok r => simp [hsu, hf, hr]
                | error e => cases e <;> simp [hsu, hf, hr]
  · intro spk hids hs hr
    subst hids
    simp [IncidentViewSet.perform_create, hs, hr]

/-- The theorem of claim C3 applied at a concrete save that raises an
`IntegrityError`: the incident endpoint surfaces it as a `ValidationError`. -/
theorem C3_witness :
    (IncidentViewSet.perform_create
        (fun _ _ _ => .error (.integrityError ("FOREIGN KEY constraint failed")))
        ⟨[], [], [], [], [], [], [], 0, 0, 0, 0⟩ ⟨1, false, some 5⟩ none).1 =
      .error (.validationError ("FOREIGN KEY constraint failed")) :=
  (C3_integrity_errors_mapped ⟨[], [], [], [], [], [], [], 0, 0, 0, 0⟩
      ⟨1, "Weekdays", []⟩ ⟨0⟩ _ ⟨1, false, some 5⟩ none _).2.2.2 5 rfl rfl rfl

/-- Claim C10: `all_alerts_from_source_view` always fails with a `NameError`
on the unbound module-global `AlertHistory` and never returns a response. -/
theorem C10_alert_history_name_error (db : Db) (source_id : Nat) :
    all_alerts_from_source_view db source_id =
      .error (.nameError ("AlertHistory")) := by
  rfl

lemma legacy_foldl_eq (ds : List IncidentJson) (acc : List IncidentRow) (db : Db) :
    ds.foldl
      (fun (p : List IncidentRow × Db) j =>
        let r := create_incident_from_json p.2 j
        (p.1 ++ [r.1], r.2))
      (acc, db) =
      (acc ++ legacyCreated db ds, legacyFinalDb db ds) := by
  induction ds generalizing acc db with
  | nil => simp [legacyCreated, legacyFinalDb]
  | cons j rest ih =>
      simp only [List.foldl_cons, legacyCreated, legacyFinalDb, ih,
        List.append_assoc, List.singleton_append]

lemma legacyFinalDb_incidents (ds : List IncidentJson) (db : Db) :
    (legacyFinalDb db ds).incidents = db.incidents ++ legacyCreated db ds := by
  induction ds generalizing db with
  | nil => simp [legacyCreated, legacyFinalDb]
  | cons j rest ih =>
      simp only [legacyCreated, legacyFinalDb, ih, create_incident_from_json,
        List.append_assoc, List.singleton_append]

lemma timeslot_create_eq (db : Db) (vd : TimeslotValidatedData)
    (hany : db.timeslots.any (fun t => t.user == vd.user && t.name == vd.name) = false) :
    TimeslotSerializer.create db vd =
      .ok (⟨db.nextTimeslotPk, vd.user, vd.name⟩,
        { db with
          timeslots := db.timeslots ++ [⟨db.nextTimeslotPk, vd.user, vd.name⟩],
          intervals := db.intervals ++
            newIntervalRows db.nextIntervalPk db.nextTimeslotPk vd.time_intervals,
          nextTimeslotPk := db.nextTimeslotPk + 1,
          nextIntervalPk := db.nextIntervalPk + vd.time_intervals.length }) := by
  simp only [TimeslotSerializer.create, Timeslot.objectsCreate, hany,
    Bool.false_eq_true, if_false]
  rw [intervalsFoldl_eq]

lemma timeslot_update_eq (db : Db) (t : TimeslotRow) (vd : TimeslotValidatedData)
    (hsave : db.timeslots.any
      (fun u => !(u.pk == t.pk) && u.user == t.user && u.name == vd.name) = false) :
    TimeslotSerializer.update db t vd =
      .ok ({ t with name := vd.name },
        { db with
          timeslots := db.timeslots.map
            (fun u => if u.pk == t.pk then { t with name := vd.name } else u),
          intervals := db.intervals.filter (fun r => !(r.timeslot == t.pk)) ++
            newIntervalRows db.nextIntervalPk t.pk vd.time_intervals,
          nextIntervalPk := db.nextIntervalPk + vd.time_intervals.length }) := by
  have hs : Timeslot.instanceSave db { t with name := vd.name } =
      .ok { db with
        timeslots := db.timeslots.map
          (fun u => if u.pk == t.pk then { t with name := vd.name } else u) } := by
    simp only [Timeslot.instanceSave]
    rw [if_neg (by simp [hsave])]
  simp only [TimeslotSerializer.update, hs]
  rw [intervalsFoldl_eq]

lemma filter_not_self_self (l : List TimeIntervalRow) (tpk : Nat) :
    (l.filter (fun r => !(r.timeslot == tpk))).filter (fun r => r.timeslot == tpk)
      = [] := by
  rw [List.filter_eq_nil_iff]
  intro r hr
  have := (List.mem_filter.mp hr).2
  simp only [Bool.not_eq_true'] at this
  simp [this]

lemma filter_not_self_other (l : List TimeIntervalRow) (tpk q : Nat) (h : q ≠ tpk) :
    (l.filter (fun r => !(r.timeslot == tpk))).filter (fun r => r.timeslot == q)
      = l.filter (fun r => r.timeslot == q) := by
  induction l with
  | nil => rfl
  | cons r rest ih =>
      by_cases hr : r.timeslot = tpk
      · have hq : (r.timeslot == q) = false := by
          rw [hr]
          exact beq_eq_false_iff_ne.mpr (fun hh => h hh.symm)
        have hr2 : (!(r.timeslot == tpk)) = false := by simp [hr]
        simp [List.filter_cons, hq, hr2, ih]
      · have hr2 : (r.timeslot == tpk) = false := by simp [hr]
        simp only [List.filter_cons, hr2, Bool.not_false, if_pos trivial]
        by_cases hq : r.timeslot = q
        · simp [List.filter_cons, hq, ih]
        · have hq2 : (r.timeslot == q) = false := by simp [hq]
          simp [List.filter_cons, hq2, ih]

/-- Claim C4 counterexample: with the standard save, a non-superuser with a
connected source system successfully creates an incident through
`IncidentViewSet.perform_create`, yet the trace of
`background_send_notifications_to_users` calls is empty: the claim that every
incident-creation endpoint triggers notification delivery is false. -/
theorem C4_counterexample :
    (IncidentViewSet.perform_create Incident.objectsCreate
        ⟨[], [], [], [], [], [], [], 0, 0, 0, 0⟩ ⟨1, false, some 5⟩ none).1 =
      .ok (⟨0, 1, 5⟩, ⟨[], [], [], [], [], [⟨0, 1, 5⟩], [], 0, 0, 0, 1⟩) ∧
    (IncidentViewSet.perform_create Incident.objectsCreate
        ⟨[], [], [], [], [], [], [], 0, 0, 0, 0⟩ ⟨1, false, some 5⟩ none).2 = [] := by
  constructor <;> rfl

/-- Claim C4, amended: only the legacy endpoint triggers notification
delivery.  `IncidentCreate_legacy.post` calls
`background_send_notifications_to_users` once per created incident, after all
incidents of the request are persisted in the final database;
`IncidentViewSet.perform_create` triggers no notification call. -/
theorem C4_legacy_only_notifications (db : Db) (ds : List IncidentJson)
    (save : Nat → Nat → Db → Except Exc (IncidentRow × Db))
    (user : RequestUser) (ids : Option Nat) :
    ((IncidentCreate_legacy.post db ds).2 =
      (IncidentCreate_legacy.post db ds).1.1.map (fun i => i.pk)) ∧
    (∀ i ∈ (IncidentCreate_legacy.post db ds).1.1,
      i ∈ (IncidentCreate_legacy.post db ds).1.2.incidents) ∧
    ((IncidentViewSet.perform_create save db user ids).2 = []) := by
  refine ⟨rfl, ?_, rfl⟩
  intro i hi
  simp only [IncidentCreate_legacy.post, legacy_foldl_eq, List.nil_append] at hi ⊢
  rw [legacyFinalDb_incidents]
  exact List.mem_append_right _ hi

/-- The theorem of claim C4 (amended) applied at one posted JSON dict: the
created incident is persisted in the final database. -/
theorem C4_witness :
    (⟨0, 7, 3⟩ : IncidentRow) ∈
      (IncidentCreate_legacy.post ⟨[], [], [], [], [], [], [], 0, 0, 0, 0⟩
        [⟨7, 3⟩]).1.2.incidents :=
  (C4_legacy_only_notifications ⟨[], [], [], [], [], [], [], 0, 0, 0, 0⟩ [⟨7, 3⟩]
      Incident.objectsCreate ⟨1, false, none⟩ none).2.1 ⟨0, 7, 3⟩ (by decide)

/-- Claim C5 counterexample: posting a source system whose username "nav" is
already taken does not get rejected: the view creates the source system under
the suffixed username "nav_ABC123". -/
theorem C5_counterexample :
    SourceSystemList.create ("ABC123")
        ⟨["nav"], [], [], [], [], [], [], 0, 0, 0, 0⟩ ⟨"nav", true⟩ =
      .ok (⟨0, "nav_ABC123"⟩,
        ⟨["nav", "nav_ABC123"], [⟨0, "nav_ABC123"⟩], [], [], [], [], [], 1, 0, 0, 0⟩) := by
  rfl

/-- Claim C5, amended: a source-system creation request whose username is
already taken is not rejected; the view appends a random suffix to the
username, re-validates, and creates the source system (with its user) under
the modified username.  It rejects only if the form is invalid for another
reason or the suffixed username is also taken. -/
theorem C5_username_suffixed (suffix : String) (db : Db) (d : SourceFormData)
    (htaken : db.users.contains d.username = true)
    (hok : d.otherFieldsOk = true)
    (hfree : db.users.contains (d.username ++ "_" ++ suffix) = false) :
    SourceSystemList.create suffix db d =
      .ok (⟨db.nextSourcePk, d.username ++ "_" ++ suffix⟩,
        { db with
          users := db.users ++ [d.username ++ "_" ++ suffix],
          sources := db.sources ++ [⟨db.nextSourcePk, d.username ++ "_" ++ suffix⟩],
          nextSourcePk := db.nextSourcePk + 1 }) := by
  have h1 : d.username ∈ db.users := by
    simpa using htaken
  have h2 : ¬ d.username ++ "_" ++ suffix ∈ db.users := by
    simpa using hfree
  simp [SourceSystemList.create, AddSourceSystemForm.is_valid, h1, h2, hok,
    SourceSystemList._set_available_username, AddSourceSystemForm.save]

/-- The theorem of claim C5 (amended) applied at the taken username "nav" and
the random suffix "0F12AB". -/
theorem C5_witness :
    SourceSystemList.create ("0F12AB")
        ⟨["nav"], [⟨0, "nav"⟩], [], [], [], [], [], 1, 0, 0, 0⟩ ⟨"nav", true⟩ =
      .ok (⟨1, "nav_0F12AB"⟩,
        ⟨["nav", "nav_0F12AB"], [⟨0, "nav"⟩, ⟨1, "nav_0F12AB"⟩], [], [], [], [], [], 2, 0, 0, 0⟩) :=
  C5_username_suffixed ("0F12AB") ⟨["nav"], [⟨0, "nav"⟩], [], [], [], [], [], 1, 0, 0, 0⟩
    ⟨"nav", true⟩ (by decide) rfl (by decide)

/-- Claim C6: for any model-level state transition, if the guard raises a
Django `ValidationError` then `IncidentViewSet._set_state_action` surfaces it
as an HTTP 400 `ValidationError` and the database is unchanged; if the guard
succeeds, the updated incident is returned (serialized in the response) along
with the state the transition produced. -/
theorem C6_set_state_action
    (set_state : IncidentRow → Db → Except Exc (IncidentRow × Db))
    (db : Db) (incident : IncidentRow) :
    (∀ m, set_state incident db = .error (.djangoValidationError m) →
      IncidentViewSet._set_state_action set_state db incident =
        (.error (.validationError m), db)) ∧
    (∀ inc2 db2, set_state incident db = .ok (inc2, db2) →
      IncidentViewSet._set_state_action set_state db incident =
        (.ok inc2, db2)) := by
  constructor
  · intro m h
    simp [IncidentViewSet._set_state_action, h]
  · intro inc2 db2 h
    simp [IncidentViewSet._set_state_action, h]

/-- The theorem of claim C6 applied at a guard that always rejects: the
response is a `ValidationError` and the database is returned unchanged. -/
theorem C6_witness :
    IncidentViewSet._set_state_action
        (fun _ _ => .error (.djangoValidationError ("Incident is already active.")))
        ⟨[], [], [], [], [], [⟨3, 1, 5⟩], [], 0, 0, 0, 4⟩ ⟨3, 1, 5⟩ =
      (.error (.validationError ("Incident is already active.")),
        ⟨[], [], [], [], [], [⟨3, 1, 5⟩], [], 0, 0, 0, 4⟩) :=
  (C6_set_state_action _ _ _).1 _ rfl

/-- Claim C7: create/read and update/read round-trips on timeslots are
consistent: when the posted name does not collide with another timeslot of the
same user, serializing the timeslot produced by `TimeslotSerializer.create`
(resp. `update`) yields exactly the posted name and the posted list of time
intervals. -/
theorem C7_timeslot_roundtrip (db : Db) (vd : TimeslotValidatedData)
    (t : TimeslotRow) (hwf : db.Wf) :
    ((∀ u ∈ db.timeslots, u.user = vd.user → u.name ≠ vd.name) →
      ∃ t1 db2, TimeslotSerializer.create db vd = .ok (t1, db2) ∧
        TimeslotSerializer.to_representation db2 t1 =
          ⟨t1.pk, vd.name, vd.time_intervals⟩) ∧
    ((∀ u ∈ db.timeslots, u.pk ≠ t.pk → u.user = t.user → u.name ≠ vd.name) →
      ∃ t2 db2, TimeslotSerializer.update db t vd = .ok (t2, db2) ∧
        TimeslotSerializer.to_representation db2 t2 =
          ⟨t.pk, vd.name, vd.time_intervals⟩) := by
  constructor
  · intro h
    have hany : db.timeslots.any
        (fun u => u.user == vd.user && u.name == vd.name) = false := by
      rw [List.any_eq_false]
      intro u hu
      simp only [Bool.and_eq_true, beq_iff_eq, not_and]
      exact h u hu
    refine ⟨_, _, timeslot_create_eq db vd hany, ?_⟩
    have hold : db.intervals.filter
        (fun r => r.timeslot == db.nextTimeslotPk) = [] := by
      rw [List.filter_eq_nil_iff]
      intro r hr
      obtain ⟨t2, ht2, hteq⟩ := hwf.2.2 r hr
      have hlt := hwf.1 t2 ht2
      simp only [beq_iff_eq]
      omega
    simp [TimeslotSerializer.to_representation, List.filter_append, hold,
      newIntervalRows_filter_self, newIntervalRows_attrs]
  · intro h
    have hsave : db.timeslots.any
        (fun u => !(u.pk == t.pk) && u.user == t.user && u.name == vd.name) = false := by
      rw [List.any_eq_false]
      intro u hu
      simp only [Bool.and_eq_true, Bool.not_eq_true', beq_iff_eq,
        beq_eq_false_iff_ne, not_and]
      exact fun hp => h u hu hp.1 hp.2
    refine ⟨_, _, timeslot_update_eq db t vd hsave, ?_⟩
    simp [TimeslotSerializer.to_representation, List.filter_append,
      filter_not_self_self, newIntervalRows_filter_self, newIntervalRows_attrs]

/-- The theorem of claim C7 applied at an empty database and one posted
interval. -/
theorem C7_witness :
    ∃ t1 db2,
      TimeslotSerializer.create ⟨[], [], [], [], [], [], [], 0, 0, 0, 0⟩
          ⟨1, "Work hours", [⟨0, 480, 960⟩]⟩ = .ok (t1, db2) ∧
      TimeslotSerializer.to_representation db2 t1 =
        ⟨t1.pk, "Work hours", [⟨0, 480, 960⟩]⟩ :=
  (C7_timeslot_roundtrip ⟨[], [], [], [], [], [], [], 0, 0, 0, 0⟩
      ⟨1, "Work hours", [⟨0, 480, 960⟩]⟩ ⟨0, 1, "Old"⟩ (by decide)).1 (by decide)

/-- Claim C8: `IncidentViewSet.perform_create` resolves the incident's source:
a posted `source` field is rejected unless the requester is a superuser and
the source exists (in which case the incident is created with that source);
without a `source` field the incident's source is the requester's connected
source system, and the request is rejected when there is none. -/
theorem C8_perform_create_source_resolution (db : Db) (user : RequestUser)
    (spk : Nat) :
    (user.is_superuser = false →
      (IncidentViewSet.perform_create Incident.objectsCreate db user (some spk)).1 =
        .error (.validationError mustBeSuperuserMsg)) ∧
    (user.is_superuser = true →
      db.sources.find? (fun s => s.pk == spk) = none →
      (IncidentViewSet.perform_create Incident.objectsCreate db user (some spk)).1 =
        .error (.validationError (sourceDoesNotExistMsg spk))) ∧
    (∀ src, user.is_superuser = true →
      db.sources.find? (fun s => s.pk == spk) = some src →
      (IncidentViewSet.perform_create Incident.objectsCreate db user (some spk)).1 =
        .ok (⟨db.nextIncidentPk, user.pk, src.pk⟩,
          { db with
            incidents := db.incidents ++ [⟨db.nextIncidentPk, user.pk, src.pk⟩],
            nextIncidentPk := db.nextIncidentPk + 1 })) ∧
    (user.source_system = none →
      (IncidentViewSet.perform_create Incident.objectsCreate db user none).1 =
        .error (.validationError noConnectedSourceMsg)) ∧
    (∀ s2, user.source_system = some s2 →
      (IncidentViewSet.perform_create Incident.objectsCreate db user none).1 =
        .ok (⟨db.nextIncidentPk, user.pk, s2⟩,
          { db with
            incidents := db.incidents ++ [⟨db.nextIncidentPk, user.pk, s2⟩],
            nextIncidentPk := db.nextIncidentPk + 1 })) := by
  refine ⟨?_, ?_, ?_, ?_, ?_⟩
  · intro h
    simp [IncidentViewSet.perform_create, h]
  · intro h hf
    simp [IncidentViewSet.perform_create, h, hf]
  · intro src h hf
    simp [IncidentViewSet.perform_create, h, hf, Incident.objectsCreate]
  · intro h
    simp [IncidentViewSet.perform_create, h]
  · intro s2 h
    simp [IncidentViewSet.perform_create, h, Incident.objectsCreate]

/-- The theorem of claim C8 applied at a non-superuser with a connected source
system (pk 5) posting no `source` field. -/
theorem C8_witness :
    (IncidentViewSet.perform_create Incident.objectsCreate
        ⟨[], [⟨5, "nav"⟩], [], [], [], [], [], 6, 0, 0, 0⟩
        ⟨2, false, some 5⟩ none).1 =
      .ok (⟨0, 2, 5⟩,
        ⟨[], [⟨5, "nav"⟩], [], [], [], [⟨0, 2, 5⟩], [], 6, 0, 0, 1⟩) :=
  (C8_perform_create_source_resolution
      ⟨[], [⟨5, "nav"⟩], [], [], [], [], [], 6, 0, 0, 0⟩
      ⟨2, false, some 5⟩ 0).2.2.2.2 5 rfl

/-- Claim C9: after `TimeslotSerializer.update`, the timeslot keeps its pk,
carries the posted name, its stored time intervals are exactly the posted
ones (no previously stored interval row survives), and the interval rows of
every other timeslot are unchanged. -/
theorem C9_update_replaces_intervals (db : Db) (t : TimeslotRow)
    (vd : TimeslotValidatedData) (hwf : db.Wf)
    (hnodup : ∀ u ∈ db.timeslots, u.pk ≠ t.pk → u.user = t.user → u.name ≠ vd.name) :
    ∃ t2 db2, TimeslotSerializer.update db t vd = .ok (t2, db2) ∧
      t2.pk = t.pk ∧ t2.name = vd.name ∧
      (db2.intervals.filter (fun r => r.timeslot == t.pk)).map TimeIntervalRow.attrs
        = vd.time_intervals ∧
      (∀ r ∈ db2.intervals, r.timeslot = t.pk → ¬ r ∈ db.intervals) ∧
      (∀ q, q ≠ t.pk →
        db2.intervals.filter (fun r => r.timeslot == q) =
          db.intervals.filter (fun r => r.timeslot == q)) := by
  have hsave : db.timeslots.any
      (fun u => !(u.pk == t.pk) && u.user == t.user && u.name == vd.name) = false := by
    rw [List.any_eq_false]
    intro u hu
    simp only [Bool.and_eq_true, Bool.not_eq_true', beq_iff_eq,
      beq_eq_false_iff_ne, not_and]
    exact fun hp => hnodup u hu hp.1 hp.2
  refine ⟨_, _, timeslot_update_eq db t vd hsave, rfl, rfl, ?_, ?_, ?_⟩
  · simp [List.filter_append, filter_not_self_self,
      newIntervalRows_filter_self, newIntervalRows_attrs]
  · intro r hr hrt hmem
    rcases List.mem_append.mp hr with holdm | hnew
    · have hno := (List.mem_filter.mp holdm).2
      simp [hrt] at hno
    · have hpk := (newIntervalRows_mem db.nextIntervalPk t.pk vd.time_intervals r hnew).2
      have hlt := hwf.2.1 r hmem
      omega
  · intro q hq
    simp [List.filter_append, filter_not_self_other db.intervals t.pk q hq,
      newIntervalRows_filter_ne db.nextIntervalPk t.pk q hq vd.time_intervals]

/-- The theorem of claim C9 applied at a timeslot (pk 0) with one stored
interval, updated to a different single interval. -/
theorem C9_witness :
    ∃ t2 db2,
      TimeslotSerializer.update
          ⟨[], [], [⟨0, 1, "Old"⟩], [⟨0, 0, 1, 60, 120⟩], [], [], [], 0, 1, 1, 0⟩
          ⟨0, 1, "Old"⟩ ⟨1, "New", [⟨2, 100, 200⟩]⟩ = .ok (t2, db2) ∧
      t2.pk = 0 ∧ t2.name = "New" ∧
      (db2.intervals.filter (fun r => r.timeslot == 0)).map TimeIntervalRow.attrs
        = [⟨2, 100, 200⟩] ∧
      (∀ r ∈ db2.intervals, r.timeslot = 0 →
        ¬ r ∈ [(⟨0, 0, 1, 60, 120⟩ : TimeIntervalRow)]) ∧
      (∀ q, q ≠ 0 →
        db2.intervals.filter (fun r => r.timeslot == q) =
          List.filter (fun r => r.timeslot == q) [(⟨0, 0, 1, 60, 120⟩ : TimeIntervalRow)]) :=
  C9_update_replaces_intervals
    ⟨[], [], [⟨0, 1, "Old"⟩], [⟨0, 0, 1, 60, 120⟩], [], [], [], 0, 1, 1, 0⟩
    ⟨0, 1, "Old"⟩ ⟨1, "New", [⟨2, 100, 200⟩]⟩ (by decide) (by decide)
